import Mathlib

/-!
Shallow embedding of `src/src/xenia/gpu/vulkan/vulkan_command_processor.h`
(class `xe::gpu::vulkan::VulkanCommandProcessor`).

The repository ships only the header of the command processor.  Inline member
functions, member initializers, key bit layouts and constants are embedded
directly from that header.  Method bodies that live in the missing
`vulkan_command_processor.cc` are modelled from the specification
(`spec.md`), guided by the comments present in the header; each such
definition carries a doc comment starting with `Modelled from the spec:`.

Vulkan handles are opaque; they are modelled as natural numbers, with fresh
handles drawn from an explicit allocation counter so that object identity
(pointer equality in the C++ source) is expressible.
-/

namespace VulkanCommandProcessor

/-- Opaque Vulkan fence handle. -/
abbrev VkFence := Nat

/-- Opaque Vulkan semaphore handle. -/
abbrev VkSemaphore := Nat

/-- Opaque Vulkan descriptor set layout handle. -/
abbrev VkDescriptorSetLayout := Nat

/-- Opaque Vulkan pipeline layout handle. -/
abbrev VkPipelineLayout := Nat

/-- Opaque Vulkan buffer handle. -/
abbrev VkBuffer := Nat

/-- Vulkan pipeline stage flag bits. -/
abbrev VkPipelineStageFlags := Nat

/-- `struct CommandBuffer { VkCommandPool pool; VkCommandBuffer buffer; }`
(header, lines 125-128). -/
structure CommandBuffer where
  pool : Nat
  buffer : Nat
deriving DecidableEq, Repr

/-- `struct SparseBufferBind { VkBuffer buffer; size_t bind_offset;
uint32_t bind_count; }` (header, lines 130-134). -/
structure SparseBufferBind where
  buffer : VkBuffer
  bind_offset : Nat
  bind_count : Nat
deriving DecidableEq, Repr

/-- `static constexpr uint32_t kMaxFramesInFlight = 3;` (header, line 241). -/
def kMaxFramesInFlight : Nat := 3

/-- The submission/frame state of `VulkanCommandProcessor` (header, lines
224-260): the fields of the class that the submission/frame state machine
reads and writes.  `VkSparseMemoryBind` entries are abstracted as
`(resourceOffset, size)` pairs and the deferred command buffer as the list of
its recorded commands; `next_handle` is the fresh-handle allocator standing
for Vulkan object creation. -/
structure SubmissionState where
  device_lost_ : Bool
  cache_clear_requested_ : Bool
  fences_free_ : List VkFence
  semaphores_free_ : List VkSemaphore
  submission_open_ : Bool
  submission_completed_ : Nat
  current_submission_wait_semaphores_ : List VkSemaphore
  current_submission_wait_stage_masks_ : List VkPipelineStageFlags
  submissions_in_flight_fences_ : List VkFence
  submissions_in_flight_semaphores_ : List (Nat × VkSemaphore)
  frame_open_ : Bool
  frame_current_ : Nat
  frame_completed_ : Nat
  closed_frame_submissions_ : List Nat
  command_buffers_writable_ : List CommandBuffer
  command_buffers_submitted_ : List (Nat × CommandBuffer)
  deferred_command_buffer_ : List Nat
  sparse_memory_binds_ : List (Nat × Nat)
  sparse_buffer_binds_ : List SparseBufferBind
  sparse_bind_wait_stage_mask_ : VkPipelineStageFlags
  next_handle : Nat
deriving DecidableEq, Repr

/-- `GetCurrentSubmission` (header, lines 65-68):
`return submission_completed_ + uint64_t(submissions_in_flight_fences_.size()) + 1;` -/
def GetCurrentSubmission (s : SubmissionState) : Nat :=
  s.submission_completed_ + s.submissions_in_flight_fences_.length + 1

/-- `GetCompletedSubmission` (header, line 69): `return submission_completed_;` -/
def GetCompletedSubmission (s : SubmissionState) : Nat :=
  s.submission_completed_

/-- The device side of the asynchronous queue boundary, used as an oracle by
the modelled operations: `signaled` is the largest submission number whose
completion signal the device has signaled so far, and `fatal` tells whether
the queue operation performed during the call reported a fatal device error. -/
structure DeviceStatus where
  signaled : Nat
  fatal : Bool
deriving DecidableEq, Repr

/-- Modelled from the spec: the body of `CheckSubmissionFenceAndDeviceLoss`
is in the missing `vulkan_command_processor.cc`.  Spec §4.1: "polls (or, if
`awaitTarget` is the current submission number, blocks until) the oldest
in-flight completion signals; every signal found complete advances the
completed-submission counter, returns its command buffer and completion
signal to their pools, and retires sparse-bind and swap-framebuffer entries
whose last-use submission number is ≤ the new completed counter.  Passing 0
performs a non-blocking poll only."  The in-flight fence at position `i`
(oldest first) guards submission `submission_completed_ + i + 1`; awaiting a
submission blocks until its fence signals, so the effective retirement target
is the device's `signaled` counter raised to the awaited in-flight submission. -/
def CheckSubmissionFenceAndDeviceLoss (s : SubmissionState)
    (await_submission : Nat) (dev : DeviceStatus) : SubmissionState :=
  let len := s.submissions_in_flight_fences_.length
  let target := if await_submission = 0 then dev.signaled
    else max dev.signaled (min await_submission (s.submission_completed_ + len))
  let k := min (target - s.submission_completed_) len
  let completed := s.submission_completed_ + k
  { s with
    device_lost_ := s.device_lost_ || dev.fatal
    submission_completed_ := completed
    submissions_in_flight_fences_ := s.submissions_in_flight_fences_.drop k
    fences_free_ := s.fences_free_ ++ s.submissions_in_flight_fences_.take k
    submissions_in_flight_semaphores_ :=
      s.submissions_in_flight_semaphores_.dropWhile (fun p => p.1 ≤ completed)
    semaphores_free_ := s.semaphores_free_ ++
      (s.submissions_in_flight_semaphores_.takeWhile
        (fun p => p.1 ≤ completed)).map Prod.snd
    command_buffers_submitted_ :=
      s.command_buffers_submitted_.dropWhile (fun p => p.1 ≤ completed)
    command_buffers_writable_ := s.command_buffers_writable_ ++
      (s.command_buffers_submitted_.takeWhile
        (fun p => p.1 ≤ completed)).map Prod.snd }

/-- `AwaitAllQueueOperationsCompletion` (header, lines 203-206), inline in the
source: `CheckSubmissionFenceAndDeviceLoss(GetCurrentSubmission()); return
!submission_open_ && submissions_in_flight_fences_.empty();` -/
def AwaitAllQueueOperationsCompletion (s : SubmissionState) (dev : DeviceStatus) :
    SubmissionState × Bool :=
  let t := CheckSubmissionFenceAndDeviceLoss s (GetCurrentSubmission s) dev
  (t, !t.submission_open_ && t.submissions_in_flight_fences_.isEmpty)

/-- Modelled from the spec: body of `BeginSubmission` is in the missing
`vulkan_command_processor.cc`.  Spec §4.1: "ensures a submission is open; ...
Idempotent.  Fails (device-lost) if a prior failure was observed and not
cleared", and the frames-in-flight policy: "opening a new frame beyond this
bound blocks until the oldest qualifies" — the block awaits the closing
submission recorded in `closed_frame_submissions_[frame_current_ %
kMaxFramesInFlight]`, the ring slot the new frame is about to reuse.
Returns, per the header comment (lines 194-198), "whether a submission is
open currently and the device is not lost". -/
def BeginSubmission (s : SubmissionState) (is_guest_command : Bool)
    (dev : DeviceStatus) : SubmissionState × Bool :=
  if s.device_lost_ then (s, false) else
  let frame_opening := is_guest_command && !s.frame_open_
  let s1 := if frame_opening then
      CheckSubmissionFenceAndDeviceLoss s
        (s.closed_frame_submissions_.getD (s.frame_current_ % kMaxFramesInFlight) 0)
        dev
    else s
  if s1.device_lost_ then (s1, false) else
  let s2 := if s1.submission_open_ then s1
    else { s1 with submission_open_ := true, deferred_command_buffer_ := [] }
  let s3 := if frame_opening then { s2 with frame_open_ := true } else s2
  (s3, true)

/-- The queue's response to one `EndSubmission` attempt: whether the
`vkQueueBindSparse` call (if one is made) and the `vkQueueSubmit` call are
accepted. -/
structure QueueStatus where
  bind_sparse_ok : Bool
  submit_ok : Bool
deriving DecidableEq, Repr

/-- Recycle a semaphore from `semaphores_free_`, or create a fresh one. -/
def acquireSemaphore (s : SubmissionState) : VkSemaphore × SubmissionState :=
  match s.semaphores_free_ with
  | [] => (s.next_handle, { s with next_handle := s.next_handle + 1 })
  | sem :: rest => (sem, { s with semaphores_free_ := rest })

/-- Recycle a fence from `fences_free_`, or create a fresh one. -/
def acquireFence (s : SubmissionState) : VkFence × SubmissionState :=
  match s.fences_free_ with
  | [] => (s.next_handle, { s with next_handle := s.next_handle + 1 })
  | f :: rest => (f, { s with fences_free_ := rest })

/-- Take a command buffer from `command_buffers_writable_`, or create a fresh
one. -/
def acquireCommandBuffer (s : SubmissionState) : CommandBuffer × SubmissionState :=
  match s.command_buffers_writable_ with
  | [] => (⟨s.next_handle, s.next_handle⟩, { s with next_handle := s.next_handle + 1 })
  | cb :: rest => (cb, { s with command_buffers_writable_ := rest })

/-- Modelled from the spec: the successful `vkQueueBindSparse` step of
`EndSubmission` (body in the missing `vulkan_command_processor.cc`).  The
batched sparse binds are handed to the queue as one bind operation (spec
§4.1: "the batch is flushed as a single bind operation at submission-close
time, before the command buffer is enqueued"), and — per the header comment
on `current_submission_wait_semaphores_` (lines 233-236: "In case
vkQueueSubmit fails after something like a successful vkQueueBindSparse, to
wait correctly on the next attempt") — a semaphore signaled by the bind is
appended to the wait lists of the current submission, surviving a later
submit failure. -/
def bindSparseConsume (s : SubmissionState) : SubmissionState :=
  let a := acquireSemaphore s
  { a.2 with
    sparse_memory_binds_ := []
    sparse_buffer_binds_ := []
    sparse_bind_wait_stage_mask_ := 0
    current_submission_wait_semaphores_ :=
      a.2.current_submission_wait_semaphores_ ++ [a.1]
    current_submission_wait_stage_masks_ :=
      a.2.current_submission_wait_stage_masks_ ++ [s.sparse_bind_wait_stage_mask_]
    submissions_in_flight_semaphores_ :=
      a.2.submissions_in_flight_semaphores_ ++ [(GetCurrentSubmission s, a.1)] }

/-- Modelled from the spec: the successful `vkQueueSubmit` step of
`EndSubmission`.  The deferred command list is executed into a command buffer
taken from the writable pool, the submission is attached a completion fence
and moved to the in-flight lists, the wait-semaphore lists are consumed by
the submit, and the submission is closed. -/
def submitClose (s : SubmissionState) : SubmissionState :=
  let n := GetCurrentSubmission s
  let a := acquireFence s
  let b := acquireCommandBuffer a.2
  { b.2 with
    submission_open_ := false
    current_submission_wait_semaphores_ := []
    current_submission_wait_stage_masks_ := []
    submissions_in_flight_fences_ := b.2.submissions_in_flight_fences_ ++ [a.1]
    command_buffers_submitted_ := b.2.command_buffers_submitted_ ++ [(n, b.1)]
    deferred_command_buffer_ := [] }

/-- Modelled from the spec: closing a full frame (spec §3: a frame "tracks
the submission number that closed it"; the ring `closed_frame_submissions_`
holds "submission indices of frames that have already been submitted").  The
slot of the closing frame records the number of the last closed submission,
and the frame counter advances. -/
def closeFrame (s : SubmissionState) : SubmissionState :=
  { s with
    frame_open_ := false
    frame_current_ := s.frame_current_ + 1
    closed_frame_submissions_ := s.closed_frame_submissions_.set
      (s.frame_current_ % kMaxFramesInFlight)
      (s.submission_completed_ + s.submissions_in_flight_fences_.length) }

/-- Modelled from the spec: body of `EndSubmission` is in the missing
`vulkan_command_processor.cc`.  Spec §4.1: "closes the open submission,
moving its recorded commands plus any pending sparse-bind batch to the
device queue, attaching one completion signal. ... On submit failure, leaves
the submission open and the signal unconsumed so the caller may retry or
surface device loss; never leaves internal pool accounting double-counted."
Header comment (lines 199-202): "Returns whether the submission was done
successfully, if it has failed, leaves it open"; and per lines 233-236 a
`vkQueueBindSparse` that succeeded before a failed `vkQueueSubmit` leaves
its signal semaphore in the wait lists for the next attempt. -/
def EndSubmission (s : SubmissionState) (is_swap : Bool) (q : QueueStatus) :
    SubmissionState × Bool :=
  if s.device_lost_ then (s, false) else
  if s.submission_open_ then
    let hasSparse :=
      !(s.sparse_memory_binds_.isEmpty && s.sparse_buffer_binds_.isEmpty)
    if hasSparse && !q.bind_sparse_ok then (s, false)
    else
      let s1 := if hasSparse then bindSparseConsume s else s
      if !q.submit_ok then (s1, false)
      else
        let s2 := submitClose s1
        ((if is_swap && s2.frame_open_ then closeFrame s2 else s2), true)
  else
    ((if is_swap && s.frame_open_ then closeFrame s else s), true)

/-! ## Descriptor-set-layout / pipeline-layout cache -/

/-- `union TextureDescriptorSetLayoutKey` (header, lines 136-144): bit 0 is
`is_vertex : 1`, bits 1-31 are `texture_count : 31`; `key` is the packed
32-bit value. -/
def TextureDescriptorSetLayoutKey (is_vertex : Bool) (texture_count : Nat) : Nat :=
  (if is_vertex then 1 else 0) + 2 * (texture_count % 2 ^ 31)

/-- `union PipelineLayoutKey` (header, lines 147-155): bits 0-15 are
`texture_count_pixel : 16` ("Pixel textures in the low bits since those are
varied much more commonly"), bits 16-31 are `texture_count_vertex : 16`;
`key` is the packed 32-bit value.  Assigning a `uint32_t` count into a
16-bit bit-field truncates it modulo `2^16`. -/
def PipelineLayoutKey (texture_count_pixel texture_count_vertex : Nat) : Nat :=
  texture_count_pixel % 2 ^ 16 + 2 ^ 16 * (texture_count_vertex % 2 ^ 16)

/-- `class PipelineLayout : public VulkanPipelineCache::PipelineLayoutProvider`
(header, lines 158-183): a pipeline layout handle plus the two
texture-descriptor-set-layout references it was built from. -/
structure PipelineLayout where
  pipeline_layout_ : VkPipelineLayout
  descriptor_set_layout_textures_vertex_ref_ : VkDescriptorSetLayout
  descriptor_set_layout_textures_pixel_ref_ : VkDescriptorSetLayout
deriving DecidableEq, Repr

/-- Association-list lookup by key (the embedding of
`std::unordered_map::find`). -/
def lookup {α : Type} (k : Nat) : List (Nat × α) → Option α
  | [] => none
  | p :: rest => if p.1 = k then some p.2 else lookup k rest

/-- The layout-cache state of `VulkanCommandProcessor` (header, lines
267-285): the shared empty descriptor set layout, the map
`TextureDescriptorSetLayoutKey::key -> VkDescriptorSetLayout`, and the map
`PipelineLayoutKey::key -> PipelineLayout`; `next_handle` is the
fresh-handle allocator standing for Vulkan object creation. -/
structure LayoutCache where
  descriptor_set_layout_empty_ : VkDescriptorSetLayout
  descriptor_set_layouts_textures_ : List (Nat × VkDescriptorSetLayout)
  pipeline_layouts_ : List (Nat × PipelineLayout)
  next_handle : Nat
deriving DecidableEq, Repr

/-- Modelled from the spec: resolution of a texture descriptor set layout
(done inside `GetPipelineLayout`, whose body is in the missing
`vulkan_command_processor.cc`).  Spec §4.2: "resolves (or creates and
caches) the two texture-descriptor-set-layouts via
`TextureDescriptorSetLayoutKey{isVertex, textureCount}` (a count of 0 reuses
a shared empty-layout singleton rather than allocating)"; header comment on
the key (lines 139-141): "For 0, use descriptor_set_layout_empty_ instead as
these are owning references." -/
def GetTextureDescriptorSetLayout (s : LayoutCache) (is_vertex : Bool)
    (texture_count : Nat) : LayoutCache × VkDescriptorSetLayout :=
  if texture_count = 0 then (s, s.descriptor_set_layout_empty_)
  else
    let key := TextureDescriptorSetLayoutKey is_vertex texture_count
    match lookup key s.descriptor_set_layouts_textures_ with
    | some h => (s, h)
    | none =>
      let h := s.next_handle
      ({ s with
          descriptor_set_layouts_textures_ :=
            (key, h) :: s.descriptor_set_layouts_textures_,
          next_handle := h + 1 }, h)

/-- Modelled from the spec: body of `GetPipelineLayout` is in the missing
`vulkan_command_processor.cc`.  Spec §4.2: "looks up by
`PipelineLayoutKey{texturesPixel, texturesVertex}`; on miss, first resolves
(or creates and caches) the two texture-descriptor-set-layouts ..., then
builds and caches the composite pipeline-layout object." -/
def GetPipelineLayout (s : LayoutCache)
    (texture_count_pixel texture_count_vertex : Nat) :
    LayoutCache × PipelineLayout :=
  let key := PipelineLayoutKey texture_count_pixel texture_count_vertex
  match lookup key s.pipeline_layouts_ with
  | some pl => (s, pl)
  | none =>
    let r1 := GetTextureDescriptorSetLayout s true texture_count_vertex
    let r2 := GetTextureDescriptorSetLayout r1.1 false texture_count_pixel
    let pl : PipelineLayout := ⟨r2.1.next_handle, r1.2, r2.2⟩
    ({ r2.1 with
        pipeline_layouts_ := (key, pl) :: r2.1.pipeline_layouts_,
        next_handle := r2.1.next_handle + 1 }, pl)

/-! ## Dynamic render-state tracker -/

/-- The pre-initialized dynamic stencil state of the graphics pipeline bind
point (header, lines 326-336). -/
structure DynamicStencilState where
  dynamic_stencil_compare_mask_front_ : Nat
  dynamic_stencil_compare_mask_back_ : Nat
  dynamic_stencil_write_mask_front_ : Nat
  dynamic_stencil_write_mask_back_ : Nat
  dynamic_stencil_reference_front_ : Nat
  dynamic_stencil_reference_back_ : Nat
deriving DecidableEq, Repr

/-- The member initializers from the header (lines 331-336): compare and
write masks start at `UINT8_MAX` (255), references at 0, for both faces. -/
def initialDynamicStencilState : DynamicStencilState :=
  { dynamic_stencil_compare_mask_front_ := 255
    dynamic_stencil_compare_mask_back_ := 255
    dynamic_stencil_write_mask_front_ := 255
    dynamic_stencil_write_mask_back_ := 255
    dynamic_stencil_reference_front_ := 0
    dynamic_stencil_reference_back_ := 0 }

/-! ## Transient per-submission binding pools -/

/-- `VkDescriptorBufferInfo`, abstracted to the fields the binding write
fills in: the reserved offset into the uniform buffer and the byte range. -/
structure VkDescriptorBufferInfo where
  offset : Nat
  range : Nat
deriving DecidableEq, Repr

/-- `VkWriteDescriptorSet`, abstracted to the fields the binding write fills
in: the destination descriptor set and the layout it was allocated with. -/
structure VkWriteDescriptorSet where
  dst_set : Nat
  set_layout : VkDescriptorSetLayout
deriving DecidableEq, Repr

/-- The transient per-submission allocators (header, lines 262-264:
`transient_descriptor_pool_uniform_buffers_` and `uniform_buffer_pool_`),
abstracted to their remaining capacities plus allocation cursors. -/
structure TransientPools where
  uniform_buffer_free : Nat
  descriptor_free : Nat
  uniform_buffer_offset : Nat
  next_descriptor : Nat
deriving DecidableEq, Repr

/-- Modelled from the spec: body of `WriteUniformBufferBinding` is in the
missing `vulkan_command_processor.cc`.  Spec §4.4: "atomically reserves
`size` bytes from the uniform-buffer pool and a descriptor slot from the
transient descriptor pool, returning a writable pointer plus the filled-in
descriptor-write record; returns a null result on allocation failure without
partial side effects."  The returned `Nat` is the writable pointer (the
reserved offset). -/
def WriteUniformBufferBinding (pools : TransientPools) (size : Nat)
    (descriptor_set_layout : VkDescriptorSetLayout) :
    TransientPools × Option (Nat × VkDescriptorBufferInfo × VkWriteDescriptorSet) :=
  if size ≤ pools.uniform_buffer_free ∧ 0 < pools.descriptor_free then
    ({ uniform_buffer_free := pools.uniform_buffer_free - size
       descriptor_free := pools.descriptor_free - 1
       uniform_buffer_offset := pools.uniform_buffer_offset + size
       next_descriptor := pools.next_descriptor + 1 },
     some (pools.uniform_buffer_offset,
           ⟨pools.uniform_buffer_offset, size⟩,
           ⟨pools.next_descriptor, descriptor_set_layout⟩))
  else (pools, none)

/-! ## Sample states for concrete evaluation -/

/-- An idle submission state: no submission open, none in flight, five
submissions already completed. -/
def idleState : SubmissionState :=
  { device_lost_ := false
    cache_clear_requested_ := false
    fences_free_ := [10, 11]
    semaphores_free_ := [20]
    submission_open_ := false
    submission_completed_ := 5
    current_submission_wait_semaphores_ := []
    current_submission_wait_stage_masks_ := []
    submissions_in_flight_fences_ := []
    submissions_in_flight_semaphores_ := []
    frame_open_ := false
    frame_current_ := 1
    frame_completed_ := 0
    closed_frame_submissions_ := [0, 0, 0]
    command_buffers_writable_ := []
    command_buffers_submitted_ := []
    deferred_command_buffer_ := []
    sparse_memory_binds_ := []
    sparse_buffer_binds_ := []
    sparse_bind_wait_stage_mask_ := 0
    next_handle := 100 }

/-- A state with an open submission holding recorded commands and a pending
sparse-bind batch. -/
def openSparseState : SubmissionState :=
  { idleState with
    submission_open_ := true
    deferred_command_buffer_ := [1, 2, 3]
    sparse_memory_binds_ := [(0, 4096)]
    sparse_buffer_binds_ := [⟨7, 0, 1⟩]
    sparse_bind_wait_stage_mask_ := 1 }

/-- A state that has observed device loss. -/
def lostState : SubmissionState :=
  { idleState with device_lost_ := true }

/-- A state with `kMaxFramesInFlight` closed frames outstanding (closing
submissions 1, 2, 3, none yet completed, all three fences in flight) about to
open a fourth frame. -/
def throttleState : SubmissionState :=
  { idleState with
    submission_completed_ := 0
    submissions_in_flight_fences_ := [30, 31, 32]
    frame_current_ := 4
    closed_frame_submissions_ := [1, 2, 3] }

/-- A freshly initialized layout cache: empty maps, the shared empty layout
is handle 0, fresh handles start at 1. -/
def emptyLayoutCache : LayoutCache :=
  { descriptor_set_layout_empty_ := 0
    descriptor_set_layouts_textures_ := []
    pipeline_layouts_ := []
    next_handle := 1 }

/-! ## Helper lemmas -/

theorem lookup_cons_self {α : Type} (k : Nat) (v : α) (l : List (Nat × α)) :
    lookup k ((k, v) :: l) = some v := by
  simp [lookup]

theorem lookup_cons_ne {α : Type} {k k' : Nat} (h : k' ≠ k) (v : α)
    (l : List (Nat × α)) : lookup k ((k', v) :: l) = lookup k l := by
  simp [lookup, h]

theorem mem_of_lookup_eq_some {α : Type} {k : Nat} {v : α}
    {l : List (Nat × α)} (h : lookup k l = some v) : (k, v) ∈ l := by
  induction l with
  | nil => simp [lookup] at h
  | cons p rest ih =>
    by_cases hp : p.1 = k
    · rw [lookup, if_pos hp] at h
      obtain ⟨k0, v0⟩ := p
      obtain rfl : k0 = k := hp
      obtain rfl : v0 = v := by injection h
      exact List.mem_cons_self _ _
    · rw [lookup, if_neg hp] at h
      exact List.mem_cons_of_mem _ (ih h)

theorem lookup_eq_none_forall {α : Type} {k : Nat} {l : List (Nat × α)}
    (h : lookup k l = none) : ∀ p ∈ l, p.1 ≠ k := by
  induction l with
  | nil => intro p hp; cases hp
  | cons q rest ih =>
    intro p hp
    by_cases hq : q.1 = k
    · rw [lookup, if_pos hq] at h; cases h
    · rw [lookup, if_neg hq] at h
      rcases List.mem_cons.mp hp with rfl | hmem
      · exact hq
      · exact ih h p hmem

theorem length_filter_lt_of_mem_not {α : Type} (p : α → Bool) (l : List α)
    (a : α) (ha : a ∈ l) (hpa : p a = false) :
    (l.filter p).length < l.length := by
  induction l with
  | nil => cases ha
  | cons x xs ih =>
    rcases List.mem_cons.mp ha with rfl | hmem
    · rw [List.filter_cons, if_neg (by simp [hpa])]
      exact Nat.lt_succ_of_le (List.length_filter_le p xs)
    · by_cases hx : p x = true
      · rw [List.filter_cons, if_pos (by simp [hx])]
        exact Nat.succ_lt_succ (ih hmem)
      · rw [List.filter_cons, if_neg (by simp at hx ⊢; exact hx)]
        exact Nat.lt_succ_of_lt (ih hmem)

/-! ## Claim theorems -/

/-- C10: In every state, `GetCurrentSubmission()` equals
`GetCompletedSubmission()` plus the number of in-flight submission fences
plus one; consequently `GetCurrentSubmission()` is strictly greater than
`GetCompletedSubmission()` even when no submission is open or in flight. -/
theorem current_submission_is_completed_plus_in_flight_plus_one
    (s : SubmissionState) :
    GetCurrentSubmission s =
      GetCompletedSubmission s + s.submissions_in_flight_fences_.length + 1 ∧
    GetCompletedSubmission s < GetCurrentSubmission s := by
  refine ⟨rfl, ?_⟩
  unfold GetCurrentSubmission GetCompletedSubmission
  omega

/-- C4: In the initial state of the dynamic render-state tracker, the stencil
compare masks and write masks for both faces equal the full mask `0xFF`, both
stencil references equal 0, and every front-face value equals the
corresponding back-face value. -/
theorem initial_stencil_state_full_mask_zero_ref_front_eq_back :
    initialDynamicStencilState.dynamic_stencil_compare_mask_front_ = 0xFF ∧
    initialDynamicStencilState.dynamic_stencil_compare_mask_back_ = 0xFF ∧
    initialDynamicStencilState.dynamic_stencil_write_mask_front_ = 0xFF ∧
    initialDynamicStencilState.dynamic_stencil_write_mask_back_ = 0xFF ∧
    initialDynamicStencilState.dynamic_stencil_reference_front_ = 0 ∧
    initialDynamicStencilState.dynamic_stencil_reference_back_ = 0 ∧
    initialDynamicStencilState.dynamic_stencil_compare_mask_front_ =
      initialDynamicStencilState.dynamic_stencil_compare_mask_back_ ∧
    initialDynamicStencilState.dynamic_stencil_write_mask_front_ =
      initialDynamicStencilState.dynamic_stencil_write_mask_back_ ∧
    initialDynamicStencilState.dynamic_stencil_reference_front_ =
      initialDynamicStencilState.dynamic_stencil_reference_back_ := by
  decide

/-- C1 (counterexample): the claim as stated is false — at a concrete state
with no submission open or in flight, `AwaitAllQueueOperationsCompletion`
returns true yet `GetCurrentSubmission()` and `GetCompletedSubmission()` are
not equal (the code keeps the current counter strictly one past the
completed counter even when fully idle). -/
theorem await_all_true_but_counters_not_equal :
    (AwaitAllQueueOperationsCompletion idleState ⟨0, false⟩).2 = true ∧
    GetCurrentSubmission (AwaitAllQueueOperationsCompletion idleState ⟨0, false⟩).1 ≠
      GetCompletedSubmission (AwaitAllQueueOperationsCompletion idleState ⟨0, false⟩).1 := by
  decide

/-- C1 (amended): `GetCurrentSubmission() > GetCompletedSubmission()` holds
in every state (not only while a submission is open or in flight), and once
`AwaitAllQueueOperationsCompletion()` returns true the counters differ by
exactly one — `GetCurrentSubmission() = GetCompletedSubmission() + 1` — they
never become equal. -/
theorem current_gt_completed_and_await_leaves_gap_one
    (s : SubmissionState) (dev : DeviceStatus) :
    GetCompletedSubmission s < GetCurrentSubmission s ∧
    ((AwaitAllQueueOperationsCompletion s dev).2 = true →
      GetCurrentSubmission (AwaitAllQueueOperationsCompletion s dev).1 =
        GetCompletedSubmission (AwaitAllQueueOperationsCompletion s dev).1 + 1) := by
  constructor
  · unfold GetCurrentSubmission GetCompletedSubmission
    omega
  · intro h
    simp only [AwaitAllQueueOperationsCompletion, GetCurrentSubmission,
      Bool.and_eq_true, Bool.not_eq_true', List.isEmpty_iff] at h
    simp only [AwaitAllQueueOperationsCompletion, GetCurrentSubmission,
      GetCompletedSubmission, h.2, List.length_nil]

/-- C1 (witness): the amended claim at the concrete idle state. -/
theorem current_gt_completed_and_await_leaves_gap_one_witness :
    GetCurrentSubmission (AwaitAllQueueOperationsCompletion idleState ⟨0, false⟩).1 =
      GetCompletedSubmission (AwaitAllQueueOperationsCompletion idleState ⟨0, false⟩).1 + 1 :=
  (current_gt_completed_and_await_leaves_gap_one idleState ⟨0, false⟩).2 (by decide)

/-- C8: every call to `WriteUniformBufferBinding` either reserves the
requested uniform-buffer bytes and a transient descriptor slot and returns a
non-null result with the descriptor-write record filled in, or returns null
and leaves both pools unchanged — no partial side effects on failure. -/
theorem write_uniform_buffer_binding_all_or_nothing
    (pools : TransientPools) (size : Nat) (layout : VkDescriptorSetLayout) :
    (∃ r, (WriteUniformBufferBinding pools size layout).2 = some r ∧
      size ≤ pools.uniform_buffer_free ∧ 0 < pools.descriptor_free ∧
      (WriteUniformBufferBinding pools size layout).1.uniform_buffer_free + size =
        pools.uniform_buffer_free ∧
      (WriteUniformBufferBinding pools size layout).1.descriptor_free + 1 =
        pools.descriptor_free ∧
      r.2.1.offset = pools.uniform_buffer_offset ∧
      r.2.1.range = size ∧
      r.2.2.dst_set = pools.next_descriptor ∧
      r.2.2.set_layout = layout ∧
      r.1 = pools.uniform_buffer_offset) ∨
    ((WriteUniformBufferBinding pools size layout).2 = none ∧
      (WriteUniformBufferBinding pools size layout).1 = pools ∧
      (pools.uniform_buffer_free < size ∨ pools.descriptor_free = 0)) := by
  by_cases h : size ≤ pools.uniform_buffer_free ∧ 0 < pools.descriptor_free
  · left
    refine ⟨(pools.uniform_buffer_offset, ⟨pools.uniform_buffer_offset, size⟩,
      ⟨pools.next_descriptor, layout⟩), ?_, h.1, h.2, ?_, ?_, rfl, rfl, rfl, rfl, rfl⟩
    · simp [WriteUniformBufferBinding, h]
    · simp only [WriteUniformBufferBinding, if_pos h]
      omega
    · simp only [WriteUniformBufferBinding, if_pos h]
      omega
  · right
    have hn : pools.uniform_buffer_free < size ∨ pools.descriptor_free = 0 := by
      omega
    exact ⟨by simp [WriteUniformBufferBinding, h], by simp [WriteUniformBufferBinding, h], hn⟩

/-- C9: device loss is sticky — once `device_lost_` is set, `BeginSubmission`
and `EndSubmission` fail immediately, and no modelled operation
(`BeginSubmission`, `EndSubmission`, `CheckSubmissionFenceAndDeviceLoss`,
`AwaitAllQueueOperationsCompletion`) leaves the device-lost state. -/
theorem device_loss_is_sticky (s : SubmissionState) (g b : Bool)
    (dev dev2 : DeviceStatus) (q : QueueStatus) (a : Nat)
    (h : s.device_lost_ = true) :
    (BeginSubmission s g dev).2 = false ∧
    (BeginSubmission s g dev).1.device_lost_ = true ∧
    (EndSubmission s b q).2 = false ∧
    (EndSubmission s b q).1.device_lost_ = true ∧
    (CheckSubmissionFenceAndDeviceLoss s a dev2).device_lost_ = true ∧
    (AwaitAllQueueOperationsCompletion s dev2).1.device_lost_ = true := by
  refine ⟨?_, ?_, ?_, ?_, ?_, ?_⟩ <;>
    simp [BeginSubmission, EndSubmission, CheckSubmissionFenceAndDeviceLoss,
      AwaitAllQueueOperationsCompletion, h]

/-- C9 (witness): stickiness at the concrete device-lost state. -/
theorem device_loss_is_sticky_witness :
    (BeginSubmission lostState true ⟨9, false⟩).2 = false ∧
    (BeginSubmission lostState true ⟨9, false⟩).1.device_lost_ = true ∧
    (EndSubmission lostState true ⟨true, true⟩).2 = false ∧
    (EndSubmission lostState true ⟨true, true⟩).1.device_lost_ = true ∧
    (CheckSubmissionFenceAndDeviceLoss lostState 0 ⟨9, false⟩).device_lost_ = true ∧
    (AwaitAllQueueOperationsCompletion lostState ⟨9, false⟩).1.device_lost_ = true :=
  device_loss_is_sticky lostState true true ⟨9, false⟩ ⟨9, false⟩ ⟨true, true⟩ 0 (by decide)

/-- Fields of `bindSparseConsume`: it leaves the open submission, its
recorded commands, the command-buffer pools, the in-flight lists and the
completed counter untouched; it clears the sparse batch and appends exactly
one wait semaphore. -/
theorem bindSparseConsume_spec (s : SubmissionState) :
    (bindSparseConsume s).submission_open_ = s.submission_open_ ∧
    (bindSparseConsume s).deferred_command_buffer_ = s.deferred_command_buffer_ ∧
    (bindSparseConsume s).command_buffers_writable_ = s.command_buffers_writable_ ∧
    (bindSparseConsume s).command_buffers_submitted_ = s.command_buffers_submitted_ ∧
    (bindSparseConsume s).submissions_in_flight_fences_ = s.submissions_in_flight_fences_ ∧
    (bindSparseConsume s).submission_completed_ = s.submission_completed_ ∧
    (bindSparseConsume s).frame_open_ = s.frame_open_ ∧
    (bindSparseConsume s).sparse_memory_binds_ = [] ∧
    (bindSparseConsume s).sparse_buffer_binds_ = [] ∧
    (bindSparseConsume s).current_submission_wait_semaphores_.length =
      s.current_submission_wait_semaphores_.length + 1 := by
  cases hs : s.semaphores_free_ <;>
    simp [bindSparseConsume, acquireSemaphore, hs]

/-- C5 (counterexample): the claim as stated is false — at a concrete state
with an open submission and a pending sparse-bind batch, a queue that accepts
`vkQueueBindSparse` but rejects `vkQueueSubmit` (no device loss) makes
`EndSubmission` fail, yet the batched sparse binds are NOT retained
unconsumed and the state is NOT unchanged: the binds were already handed to
the queue by the successful bind operation. -/
theorem end_submission_failure_not_state_unchanged :
    openSparseState.sparse_memory_binds_ ≠ [] ∧
    (EndSubmission openSparseState false ⟨true, false⟩).2 = false ∧
    (EndSubmission openSparseState false ⟨true, false⟩).1.device_lost_ = false ∧
    (EndSubmission openSparseState false ⟨true, false⟩).1.sparse_memory_binds_ = [] ∧
    (EndSubmission openSparseState false ⟨true, false⟩).1 ≠ openSparseState := by
  decide

/-- C5 (amended): when `EndSubmission`'s queue submit fails without device
loss, the open submission stays open with its recorded commands retained,
no pool accounting is double-counted (the command-buffer pools, in-flight
fences and completed counter are untouched), and a later call re-attempts
the submit.  Sparse binds are retained unconsumed exactly when they were
never successfully handed to the queue (batch empty, or `vkQueueBindSparse`
itself rejected — then the state is entirely unchanged); if
`vkQueueBindSparse` succeeded before the submit failure, the batch is
consumed and its signal semaphore is retained in the wait-semaphore list so
the retried submit waits on it. -/
theorem end_submission_failure_retains_open_submission
    (s : SubmissionState) (w : Bool) (q : QueueStatus)
    (hl : s.device_lost_ = false) (ho : s.submission_open_ = true)
    (hf : (EndSubmission s w q).2 = false) :
    (EndSubmission s w q).1.submission_open_ = true ∧
    (EndSubmission s w q).1.deferred_command_buffer_ = s.deferred_command_buffer_ ∧
    (EndSubmission s w q).1.command_buffers_writable_ = s.command_buffers_writable_ ∧
    (EndSubmission s w q).1.command_buffers_submitted_ = s.command_buffers_submitted_ ∧
    (EndSubmission s w q).1.submissions_in_flight_fences_ = s.submissions_in_flight_fences_ ∧
    (EndSubmission s w q).1.submission_completed_ = s.submission_completed_ ∧
    (EndSubmission s w q).1.frame_open_ = s.frame_open_ ∧
    ((s.sparse_memory_binds_.isEmpty && s.sparse_buffer_binds_.isEmpty) = true ∨
        q.bind_sparse_ok = false → (EndSubmission s w q).1 = s) ∧
    ((s.sparse_memory_binds_.isEmpty && s.sparse_buffer_binds_.isEmpty) = false →
      q.bind_sparse_ok = true →
        (EndSubmission s w q).1 = bindSparseConsume s ∧
        (EndSubmission s w q).1.sparse_memory_binds_ = [] ∧
        (EndSubmission s w q).1.sparse_buffer_binds_ = [] ∧
        (EndSubmission s w q).1.current_submission_wait_semaphores_.length =
          s.current_submission_wait_semaphores_.length + 1) := by
  cases hsp : (s.sparse_memory_binds_.isEmpty && s.sparse_buffer_binds_.isEmpty) with
  | true =>
    cases hsub : q.submit_ok with
    | true => simp [EndSubmission, hl, ho, hsp, hsub] at hf
    | false =>
      have hA : (EndSubmission s w q).1 = s := by
        simp [EndSubmission, hl, ho, hsp, hsub]
      rw [hA]
      refine ⟨ho, rfl, rfl, rfl, rfl, rfl, rfl, fun _ => rfl, fun hc _ => ?_⟩
      simp at hc
  | false =>
    cases hb : q.bind_sparse_ok with
    | false =>
      have hA : (EndSubmission s w q).1 = s := by
        simp [EndSubmission, hl, ho, hsp, hb]
      rw [hA]
      refine ⟨ho, rfl, rfl, rfl, rfl, rfl, rfl, fun _ => rfl, fun _ hc => ?_⟩
      simp at hc
    | true =>
      cases hsub : q.submit_ok with
      | true => simp [EndSubmission, hl, ho, hsp, hb, hsub] at hf
      | false =>
        have hA : (EndSubmission s w q).1 = bindSparseConsume s := by
          simp [EndSubmission, hl, ho, hsp, hb, hsub]
        obtain ⟨h1, h2, h3, h4, h5, h6, h7, h8, h9, h10⟩ := bindSparseConsume_spec s
        rw [hA]
        refine ⟨h1.trans ho, h2, h3, h4, h5, h6, h7, fun hc => ?_, fun _ _ => ⟨rfl, h8, h9, h10⟩⟩
        rcases hc with hc | hc <;> simp at hc

/-- C5 (witness): the amended claim at the concrete open-submission state
with a sparse batch, a successful bind and a failed submit. -/
theorem end_submission_failure_retains_open_submission_witness :
    (EndSubmission openSparseState false ⟨true, false⟩).1.submission_open_ = true ∧
    (EndSubmission openSparseState false ⟨true, false⟩).1.deferred_command_buffer_ =
      openSparseState.deferred_command_buffer_ ∧
    (EndSubmission openSparseState false ⟨true, false⟩).1.command_buffers_writable_ =
      openSparseState.command_buffers_writable_ ∧
    (EndSubmission openSparseState false ⟨true, false⟩).1.command_buffers_submitted_ =
      openSparseState.command_buffers_submitted_ ∧
    (EndSubmission openSparseState false ⟨true, false⟩).1.submissions_in_flight_fences_ =
      openSparseState.submissions_in_flight_fences_ ∧
    (EndSubmission openSparseState false ⟨true, false⟩).1.submission_completed_ =
      openSparseState.submission_completed_ ∧
    (EndSubmission openSparseState false ⟨true, false⟩).1.frame_open_ =
      openSparseState.frame_open_ :=
  let h := end_submission_failure_retains_open_submission openSparseState false
    ⟨true, false⟩ (by decide) (by decide) (by decide)
  ⟨h.1, h.2.1, h.2.2.1, h.2.2.2.1, h.2.2.2.2.1, h.2.2.2.2.2.1, h.2.2.2.2.2.2.1⟩

/-! ## Layout-cache lemmas -/

theorem getTexDSL_zero (s : LayoutCache) (v : Bool) :
    GetTextureDescriptorSetLayout s v 0 = (s, s.descriptor_set_layout_empty_) := by
  simp [GetTextureDescriptorSetLayout]

theorem getTexDSL_pipeline_layouts (s : LayoutCache) (v : Bool) (c : Nat) :
    (GetTextureDescriptorSetLayout s v c).1.pipeline_layouts_ = s.pipeline_layouts_ := by
  by_cases hc : c = 0
  · simp [GetTextureDescriptorSetLayout, hc]
  · cases hl : lookup (TextureDescriptorSetLayoutKey v c)
        s.descriptor_set_layouts_textures_ <;>
      simp [GetTextureDescriptorSetLayout, hc, hl]

theorem getTexDSL_next_handle_le (s : LayoutCache) (v : Bool) (c : Nat) :
    s.next_handle ≤ (GetTextureDescriptorSetLayout s v c).1.next_handle := by
  by_cases hc : c = 0
  · simp [GetTextureDescriptorSetLayout, hc]
  · cases hl : lookup (TextureDescriptorSetLayoutKey v c)
        s.descriptor_set_layouts_textures_ <;>
      simp [GetTextureDescriptorSetLayout, hc, hl]

theorem getTexDSL_empty_preserved (s : LayoutCache) (v : Bool) (c : Nat) :
    (GetTextureDescriptorSetLayout s v c).1.descriptor_set_layout_empty_ =
      s.descriptor_set_layout_empty_ := by
  by_cases hc : c = 0
  · simp [GetTextureDescriptorSetLayout, hc]
  · cases hl : lookup (TextureDescriptorSetLayoutKey v c)
        s.descriptor_set_layouts_textures_ <;>
      simp [GetTextureDescriptorSetLayout, hc, hl]

/-- Texture descriptor set layout keys of the two shader stages never
collide: the `is_vertex` bit is bit 0 of the packed key. -/
theorem texKey_ne_other_stage (v : Bool) (c c' : Nat) :
    TextureDescriptorSetLayoutKey v c ≠ TextureDescriptorSetLayoutKey (!v) c' := by
  cases v <;> simp [TextureDescriptorSetLayoutKey] <;> omega

/-- Resolving a texture descriptor set layout for one stage never changes
the cached entries of the other stage. -/
theorem getTexDSL_lookup_other_stage (s : LayoutCache) (v : Bool) (c c' : Nat) :
    lookup (TextureDescriptorSetLayoutKey (!v) c')
        (GetTextureDescriptorSetLayout s v c).1.descriptor_set_layouts_textures_ =
      lookup (TextureDescriptorSetLayoutKey (!v) c')
        s.descriptor_set_layouts_textures_ := by
  by_cases hc : c = 0
  · simp [GetTextureDescriptorSetLayout, hc]
  · cases hl : lookup (TextureDescriptorSetLayoutKey v c)
        s.descriptor_set_layouts_textures_ with
    | some h => simp [GetTextureDescriptorSetLayout, hc, hl]
    | none =>
      simp only [GetTextureDescriptorSetLayout, hc, if_neg hc, hl]
      exact lookup_cons_ne (texKey_ne_other_stage v c c') _ _

/-- A `GetPipelineLayout` call whose key is already cached returns the cached
object and leaves the cache unchanged. -/
theorem gpl_of_lookup_some {s : LayoutCache} {p v : Nat} {pl : PipelineLayout}
    (h : lookup (PipelineLayoutKey p v) s.pipeline_layouts_ = some pl) :
    GetPipelineLayout s p v = (s, pl) := by
  simp [GetPipelineLayout, h]

/-- After any `GetPipelineLayout` call, its key maps to the returned object. -/
theorem gpl_lookup_self (s : LayoutCache) (p v : Nat) :
    lookup (PipelineLayoutKey p v) (GetPipelineLayout s p v).1.pipeline_layouts_ =
      some (GetPipelineLayout s p v).2 := by
  cases h : lookup (PipelineLayoutKey p v) s.pipeline_layouts_ with
  | some pl => simp [GetPipelineLayout, h]
  | none => simp [GetPipelineLayout, h, lookup_cons_self]

/-- Well-formedness of the layout cache: every cached pipeline layout's
handle was allocated below the allocation counter, and distinct keys hold
distinct pipeline layout handles. -/
def CacheWF (s : LayoutCache) : Prop :=
  (∀ kv ∈ s.pipeline_layouts_, kv.2.pipeline_layout_ < s.next_handle) ∧
  (∀ kv ∈ s.pipeline_layouts_, ∀ kw ∈ s.pipeline_layouts_,
    kv.1 ≠ kw.1 → kv.2.pipeline_layout_ ≠ kw.2.pipeline_layout_)

theorem CacheWF_cons (pls : List (Nat × PipelineLayout)) (n n' key : Nat)
    (a b : VkDescriptorSetLayout)
    (hwf1 : ∀ kv ∈ pls, kv.2.pipeline_layout_ < n)
    (hwf2 : ∀ kv ∈ pls, ∀ kw ∈ pls,
      kv.1 ≠ kw.1 → kv.2.pipeline_layout_ ≠ kw.2.pipeline_layout_)
    (hn : n ≤ n') :
    (∀ kv ∈ (key, (⟨n', a, b⟩ : PipelineLayout)) :: pls,
      kv.2.pipeline_layout_ < n' + 1) ∧
    (∀ kv ∈ (key, (⟨n', a, b⟩ : PipelineLayout)) :: pls,
      ∀ kw ∈ (key, (⟨n', a, b⟩ : PipelineLayout)) :: pls,
        kv.1 ≠ kw.1 → kv.2.pipeline_layout_ ≠ kw.2.pipeline_layout_) := by
  constructor
  · intro kv hkv
    rcases List.mem_cons.mp hkv with rfl | hmem
    · exact Nat.lt_succ_self _
    · exact Nat.lt_succ_of_lt (Nat.lt_of_lt_of_le (hwf1 kv hmem) hn)
  · intro kv hkv kw hkw hne
    rcases List.mem_cons.mp hkv with rfl | hv
    · rcases List.mem_cons.mp hkw with rfl | hw
      · exact absurd rfl hne
      · intro he
        have h1 := hwf1 kw hw
        have he' : n' = kw.2.pipeline_layout_ := he
        exact absurd he' (ne_of_gt (Nat.lt_of_lt_of_le h1 hn))
    · rcases List.mem_cons.mp hkw with rfl | hw
      · intro he
        have h1 := hwf1 kv hv
        have he' : kv.2.pipeline_layout_ = n' := he
        exact absurd he' (ne_of_lt (Nat.lt_of_lt_of_le h1 hn))
      · exact hwf2 kv hv kw hw hne

theorem gpl_preserves_WF (s : LayoutCache) (p v : Nat) (h : CacheWF s) :
    CacheWF (GetPipelineLayout s p v).1 := by
  cases hl : lookup (PipelineLayoutKey p v) s.pipeline_layouts_ with
  | some pl => rw [gpl_of_lookup_some hl]; exact h
  | none =>
    have hpls : (GetTextureDescriptorSetLayout
        (GetTextureDescriptorSetLayout s true v).1 false p).1.pipeline_layouts_ =
        s.pipeline_layouts_ := by
      rw [getTexDSL_pipeline_layouts, getTexDSL_pipeline_layouts]
    have hnh : s.next_handle ≤ (GetTextureDescriptorSetLayout
        (GetTextureDescriptorSetLayout s true v).1 false p).1.next_handle :=
      Nat.le_trans (getTexDSL_next_handle_le s true v)
        (getTexDSL_next_handle_le _ false p)
    simp only [GetPipelineLayout, hl]
    constructor
    · intro kv hkv
      simp only [hpls] at hkv
      exact (CacheWF_cons s.pipeline_layouts_ s.next_handle _ _ _ _ h.1 h.2 hnh).1 kv
        (by simpa [hpls] using hkv)
    · intro kv hkv kw hkw hne
      exact (CacheWF_cons s.pipeline_layouts_ s.next_handle _ _ _ _ h.1 h.2 hnh).2 kv
        (by simpa [hpls] using hkv) kw (by simpa [hpls] using hkw) hne

theorem gpl_next_handle_le (s : LayoutCache) (p v : Nat) :
    s.next_handle ≤ (GetPipelineLayout s p v).1.next_handle := by
  cases hl : lookup (PipelineLayoutKey p v) s.pipeline_layouts_ with
  | some pl => rw [gpl_of_lookup_some hl]
  | none =>
    have hnh : s.next_handle ≤ (GetTextureDescriptorSetLayout
        (GetTextureDescriptorSetLayout s true v).1 false p).1.next_handle :=
      Nat.le_trans (getTexDSL_next_handle_le s true v)
        (getTexDSL_next_handle_le _ false p)
    simp only [GetPipelineLayout, hl]
    omega

/-- C2 (counterexample): the claim as stated is false — the argument pairs
`(65536, 0)` and `(0, 0)` are distinct, yet their `PipelineLayoutKey`s
collide (the counts are truncated into 16-bit bit-fields), so the second
call returns the identical cached layout object for a different pair. -/
theorem distinct_pairs_alias_counterexample :
    ¬((65536 : Nat) = 0 ∧ (0 : Nat) = 0) ∧
    PipelineLayoutKey 65536 0 = PipelineLayoutKey 0 0 ∧
    (GetPipelineLayout (GetPipelineLayout emptyLayoutCache 65536 0).1 0 0).2 =
      (GetPipelineLayout emptyLayoutCache 65536 0).2 := by
  decide

/-- C2 (amended): two `GetPipelineLayout` calls with identical arguments
return the identical cached layout object, the second call leaving the cache
unchanged; and for argument pairs both of whose counts fit in the 16-bit
key bit-fields, distinct pairs map to distinct keys and — in a well-formed
cache — to layout objects with distinct handles.  (Pairs differing only in
bits 16 and above of a count alias because the bit-field truncates.) -/
theorem get_pipeline_layout_cached_and_distinct (s : LayoutCache)
    (p1 v1 p2 v2 : Nat) (hwf : CacheWF s)
    (hp1 : p1 < 2 ^ 16) (hv1 : v1 < 2 ^ 16) (hp2 : p2 < 2 ^ 16) (hv2 : v2 < 2 ^ 16)
    (hne : ¬(p1 = p2 ∧ v1 = v2)) :
    GetPipelineLayout (GetPipelineLayout s p1 v1).1 p1 v1 =
      ((GetPipelineLayout s p1 v1).1, (GetPipelineLayout s p1 v1).2) ∧
    PipelineLayoutKey p1 v1 ≠ PipelineLayoutKey p2 v2 ∧
    (GetPipelineLayout (GetPipelineLayout s p1 v1).1 p2 v2).2.pipeline_layout_ ≠
      (GetPipelineLayout s p1 v1).2.pipeline_layout_ := by
  have h2p : (2 : Nat) ^ 16 = 65536 := by norm_num
  have hkey : PipelineLayoutKey p1 v1 ≠ PipelineLayoutKey p2 v2 := by
    simp only [PipelineLayoutKey]
    rw [Nat.mod_eq_of_lt hp1, Nat.mod_eq_of_lt hv1, Nat.mod_eq_of_lt hp2,
      Nat.mod_eq_of_lt hv2, h2p]
    rw [h2p] at hp1 hv1 hp2 hv2
    intro h
    exact hne (by omega)
  refine ⟨gpl_of_lookup_some (gpl_lookup_self s p1 v1), hkey, ?_⟩
  have hl1 := gpl_lookup_self s p1 v1
  have hwf1 : CacheWF (GetPipelineLayout s p1 v1).1 := gpl_preserves_WF s p1 v1 hwf
  generalize hg : GetPipelineLayout s p1 v1 = r1 at hl1 hwf1 ⊢
  have hm1 : (PipelineLayoutKey p1 v1, r1.2) ∈ r1.1.pipeline_layouts_ :=
    mem_of_lookup_eq_some hl1
  cases h2 : lookup (PipelineLayoutKey p2 v2) r1.1.pipeline_layouts_ with
  | some l2 =>
    rw [gpl_of_lookup_some h2]
    exact hwf1.2 (PipelineLayoutKey p2 v2, l2) (mem_of_lookup_eq_some h2)
      (PipelineLayoutKey p1 v1, r1.2) hm1 (Ne.symm hkey)
  | none =>
    have hh : (GetPipelineLayout r1.1 p2 v2).2.pipeline_layout_ =
        (GetTextureDescriptorSetLayout
          (GetTextureDescriptorSetLayout r1.1 true v2).1 false p2).1.next_handle := by
      simp [GetPipelineLayout, h2]
    have hge : r1.1.next_handle ≤
        (GetTextureDescriptorSetLayout
          (GetTextureDescriptorSetLayout r1.1 true v2).1 false p2).1.next_handle :=
      Nat.le_trans (getTexDSL_next_handle_le _ true v2)
        (getTexDSL_next_handle_le _ false p2)
    have hlt : r1.2.pipeline_layout_ < r1.1.next_handle :=
      hwf1.1 (PipelineLayoutKey p1 v1, r1.2) hm1
    rw [hh]
    exact ne_of_gt (Nat.lt_of_lt_of_le hlt hge)

/-- C2 (witness): the amended claim at the fresh cache with the distinct
small pairs `(1, 0)` and `(0, 1)`. -/
theorem get_pipeline_layout_cached_and_distinct_witness :
    GetPipelineLayout (GetPipelineLayout emptyLayoutCache 1 0).1 1 0 =
      ((GetPipelineLayout emptyLayoutCache 1 0).1, (GetPipelineLayout emptyLayoutCache 1 0).2) ∧
    PipelineLayoutKey 1 0 ≠ PipelineLayoutKey 0 1 ∧
    (GetPipelineLayout (GetPipelineLayout emptyLayoutCache 1 0).1 0 1).2.pipeline_layout_ ≠
      (GetPipelineLayout emptyLayoutCache 1 0).2.pipeline_layout_ :=
  get_pipeline_layout_cached_and_distinct emptyLayoutCache 1 0 0 1
    (by constructor <;> intro kv hkv <;> simp [emptyLayoutCache] at hkv)
    (by norm_num) (by norm_num) (by norm_num) (by norm_num) (by decide)

/-- C3: a texture count of 0 makes `GetTextureDescriptorSetLayout` return
the shared empty-layout singleton without touching the cache at all; inside
`GetPipelineLayout`, the stage whose count is 0 gets the empty singleton as
its descriptor-set-layout reference, and no descriptor-set-layout entry is
created or cached for that stage (its cached entries, for every count, are
exactly as before the call). -/
theorem zero_texture_count_uses_empty_singleton (s : LayoutCache)
    (v p c : Nat) :
    GetTextureDescriptorSetLayout s true 0 = (s, s.descriptor_set_layout_empty_) ∧
    GetTextureDescriptorSetLayout s false 0 = (s, s.descriptor_set_layout_empty_) ∧
    (lookup (PipelineLayoutKey 0 v) s.pipeline_layouts_ = none →
      (GetPipelineLayout s 0 v).2.descriptor_set_layout_textures_pixel_ref_ =
        s.descriptor_set_layout_empty_) ∧
    (lookup (PipelineLayoutKey p 0) s.pipeline_layouts_ = none →
      (GetPipelineLayout s p 0).2.descriptor_set_layout_textures_vertex_ref_ =
        s.descriptor_set_layout_empty_) ∧
    lookup (TextureDescriptorSetLayoutKey false c)
        (GetPipelineLayout s 0 v).1.descriptor_set_layouts_textures_ =
      lookup (TextureDescriptorSetLayoutKey false c)
        s.descriptor_set_layouts_textures_ ∧
    lookup (TextureDescriptorSetLayoutKey true c)
        (GetPipelineLayout s p 0).1.descriptor_set_layouts_textures_ =
      lookup (TextureDescriptorSetLayoutKey true c)
        s.descriptor_set_layouts_textures_ := by
  have hother_true := getTexDSL_lookup_other_stage s true v c
  simp only [Bool.not_true] at hother_true
  have hother_false := getTexDSL_lookup_other_stage s false p c
  simp only [Bool.not_false] at hother_false
  refine ⟨getTexDSL_zero s true, getTexDSL_zero s false, ?_, ?_, ?_, ?_⟩
  · intro h
    simp only [GetPipelineLayout, h]
    rw [getTexDSL_zero]
    exact getTexDSL_empty_preserved s true v
  · intro h
    simp only [GetPipelineLayout, h]
    rw [getTexDSL_zero]
  · cases h : lookup (PipelineLayoutKey 0 v) s.pipeline_layouts_ with
    | some pl => simp [GetPipelineLayout, h]
    | none =>
      simp only [GetPipelineLayout, h]
      rw [getTexDSL_zero]
      exact hother_true
  · cases h : lookup (PipelineLayoutKey p 0) s.pipeline_layouts_ with
    | some pl => simp [GetPipelineLayout, h]
    | none =>
      simp only [GetPipelineLayout, h]
      rw [getTexDSL_zero]
      exact hother_false

/-- C3 (witness): the empty-singleton guarantees at the fresh cache, for
`GetPipelineLayout(0, 2)` (pixel count 0) and `GetPipelineLayout(3, 0)`
(vertex count 0). -/
theorem zero_texture_count_uses_empty_singleton_witness :
    (GetPipelineLayout emptyLayoutCache 0 2).2.descriptor_set_layout_textures_pixel_ref_ =
      emptyLayoutCache.descriptor_set_layout_empty_ ∧
    (GetPipelineLayout emptyLayoutCache 3 0).2.descriptor_set_layout_textures_vertex_ref_ =
      emptyLayoutCache.descriptor_set_layout_empty_ :=
  ⟨(zero_texture_count_uses_empty_singleton emptyLayoutCache 2 3 1).2.2.1 (by decide),
   (zero_texture_count_uses_empty_singleton emptyLayoutCache 2 3 1).2.2.2.1 (by decide)⟩

/-- C7: retirement in `CheckSubmissionFenceAndDeviceLoss` is oldest-first
and never premature: the completed-submission counter is monotonically
non-decreasing; the retired fences are an oldest-first run of the in-flight
deque whose owning submissions (`submission_completed_ + i + 1` for the
`i`-th in-flight fence) are all ≤ the new completed counter; and the command
buffers and completion semaphores returned to their free pools are exactly
an oldest-first run of the submitted deques, every one of them owned by a
submission number ≤ the new completed counter. -/
theorem retirement_oldest_first_never_premature (s : SubmissionState)
    (a : Nat) (dev : DeviceStatus) :
    GetCompletedSubmission s ≤
      GetCompletedSubmission (CheckSubmissionFenceAndDeviceLoss s a dev) ∧
    (∃ k, (CheckSubmissionFenceAndDeviceLoss s a dev).submission_completed_ =
        s.submission_completed_ + k ∧
      k ≤ s.submissions_in_flight_fences_.length ∧
      (CheckSubmissionFenceAndDeviceLoss s a dev).submissions_in_flight_fences_ =
        s.submissions_in_flight_fences_.drop k ∧
      (CheckSubmissionFenceAndDeviceLoss s a dev).fences_free_ =
        s.fences_free_ ++ s.submissions_in_flight_fences_.take k ∧
      ∀ i < k, s.submission_completed_ + i + 1 ≤
        (CheckSubmissionFenceAndDeviceLoss s a dev).submission_completed_) ∧
    (∃ rcbs,
      rcbs ++ (CheckSubmissionFenceAndDeviceLoss s a dev).command_buffers_submitted_ =
        s.command_buffers_submitted_ ∧
      (CheckSubmissionFenceAndDeviceLoss s a dev).command_buffers_writable_ =
        s.command_buffers_writable_ ++ rcbs.map Prod.snd ∧
      ∀ p ∈ rcbs, p.1 ≤
        (CheckSubmissionFenceAndDeviceLoss s a dev).submission_completed_) ∧
    (∃ rsems,
      rsems ++ (CheckSubmissionFenceAndDeviceLoss s a dev).submissions_in_flight_semaphores_ =
        s.submissions_in_flight_semaphores_ ∧
      (CheckSubmissionFenceAndDeviceLoss s a dev).semaphores_free_ =
        s.semaphores_free_ ++ rsems.map Prod.snd ∧
      ∀ p ∈ rsems, p.1 ≤
        (CheckSubmissionFenceAndDeviceLoss s a dev).submission_completed_) := by
  simp only [CheckSubmissionFenceAndDeviceLoss, GetCompletedSubmission]
  refine ⟨Nat.le_add_right _ _,
    ⟨_, rfl, Nat.min_le_right _ _, rfl, rfl, ?_⟩,
    ⟨_, List.takeWhile_append_dropWhile _ _, rfl, ?_⟩,
    ⟨_, List.takeWhile_append_dropWhile _ _, rfl, ?_⟩⟩
  · intro i hi
    omega
  · intro p hp
    simpa using List.mem_takeWhile_imp hp
  · intro p hp
    simpa using List.mem_takeWhile_imp hp

/-- The number of frames whose closing submission has not yet completed,
plus the currently open frame if any. -/
def outstandingFrames (s : SubmissionState) : Nat :=
  (s.closed_frame_submissions_.filter
    (fun n => s.submission_completed_ < n)).length +
  s.frame_open_.toNat

/-- Awaiting a submission that is completed or in flight leaves the
completed counter at or past it. -/
theorem check_awaits (s : SubmissionState) (a : Nat) (dev : DeviceStatus)
    (ha : a ≤ s.submission_completed_ + s.submissions_in_flight_fences_.length) :
    a ≤ (CheckSubmissionFenceAndDeviceLoss s a dev).submission_completed_ := by
  simp only [CheckSubmissionFenceAndDeviceLoss]
  by_cases h0 : a = 0
  · simp [h0]
  · rw [if_neg h0]
    omega

/-- C6: in a reachable state (the ring of closed-frame submissions has
`kMaxFramesInFlight` entries, each at most the newest in-flight submission)
with no frame open, opening a new frame through `BeginSubmission` first
awaits the closing submission recorded in the ring slot the frame reuses —
the oldest outstanding frame — so after the call that submission is observed
complete and at most `kMaxFramesInFlight` frames (the at most
`kMaxFramesInFlight - 1` remaining closed-but-uncompleted ones plus the
newly opened one) are outstanding. -/
theorem frames_in_flight_never_exceed_bound (s : SubmissionState)
    (dev : DeviceStatus)
    (hl : s.device_lost_ = false) (hfatal : dev.fatal = false)
    (hfo : s.frame_open_ = false)
    (hlen : s.closed_frame_submissions_.length = kMaxFramesInFlight)
    (hring : ∀ n ∈ s.closed_frame_submissions_,
      n ≤ s.submission_completed_ + s.submissions_in_flight_fences_.length) :
    s.closed_frame_submissions_.getD (s.frame_current_ % kMaxFramesInFlight) 0 ≤
      (BeginSubmission s true dev).1.submission_completed_ ∧
    outstandingFrames (BeginSubmission s true dev).1 ≤ kMaxFramesInFlight := by
  have hidx : s.frame_current_ % kMaxFramesInFlight <
      s.closed_frame_submissions_.length := by
    rw [hlen]
    exact Nat.mod_lt _ (by decide)
  have hmem : s.closed_frame_submissions_.getD
      (s.frame_current_ % kMaxFramesInFlight) 0 ∈ s.closed_frame_submissions_ := by
    rw [List.getD_eq_getElem s.closed_frame_submissions_ 0 hidx]
    exact List.getElem_mem hidx
  have hslot : s.closed_frame_submissions_.getD
      (s.frame_current_ % kMaxFramesInFlight) 0 ≤
      (CheckSubmissionFenceAndDeviceLoss s
        (s.closed_frame_submissions_.getD (s.frame_current_ % kMaxFramesInFlight) 0)
        dev).submission_completed_ :=
    check_awaits s _ dev (hring _ hmem)
  have hfields :
      (BeginSubmission s true dev).1.closed_frame_submissions_ =
        s.closed_frame_submissions_ ∧
      (BeginSubmission s true dev).1.submission_completed_ =
        (CheckSubmissionFenceAndDeviceLoss s
          (s.closed_frame_submissions_.getD (s.frame_current_ % kMaxFramesInFlight) 0)
          dev).submission_completed_ ∧
      (BeginSubmission s true dev).1.frame_open_ = true := by
    by_cases ho : s.submission_open_ <;>
      simp [BeginSubmission, CheckSubmissionFenceAndDeviceLoss, hl, hfatal, hfo, ho]
  obtain ⟨hring', hcompl, hfo'⟩ := hfields
  rw [hcompl]
  refine ⟨hslot, ?_⟩
  unfold outstandingFrames
  rw [hring', hcompl, hfo']
  have hfail : (fun n => decide
      ((CheckSubmissionFenceAndDeviceLoss s
        (s.closed_frame_submissions_.getD (s.frame_current_ % kMaxFramesInFlight) 0)
        dev).submission_completed_ < n))
      (s.closed_frame_submissions_.getD (s.frame_current_ % kMaxFramesInFlight) 0) =
      false := by
    simp only [decide_eq_false_iff_not]
    exact Nat.not_lt.mpr hslot
  have hflt := length_filter_lt_of_mem_not
    (fun n => decide
      ((CheckSubmissionFenceAndDeviceLoss s
        (s.closed_frame_submissions_.getD (s.frame_current_ % kMaxFramesInFlight) 0)
        dev).submission_completed_ < n))
    s.closed_frame_submissions_ _ hmem hfail
  rw [hlen] at hflt
  simp only [Bool.toNat_true]
  omega

/-- C6 (witness): the bound at the concrete throttled state — three frames
outstanding (closing submissions 1, 2, 3 all still in flight), the device
having signaled submission 1, opening a fourth frame. -/
theorem frames_in_flight_never_exceed_bound_witness :
    throttleState.closed_frame_submissions_.getD
        (throttleState.frame_current_ % kMaxFramesInFlight) 0 ≤
      (BeginSubmission throttleState true ⟨1, false⟩).1.submission_completed_ ∧
    outstandingFrames (BeginSubmission throttleState true ⟨1, false⟩).1 ≤
      kMaxFramesInFlight :=
  frames_in_flight_never_exceed_bound throttleState ⟨1, false⟩
    (by decide) (by decide) (by decide) (by decide) (by decide)

end VulkanCommandProcessor
